import Mathlib

/-!
Shallow embedding of the Ticket-Queuing pipeline (`src/app.py`).

The program is a Flask service with one endpoint, `prioritize`.  All network
effects (the record-fetch `requests.post`, and the two kinds of OpenAI calls)
are modelled by an `Env` of response functions, where `none` stands for the
call raising an exception (transport/protocol failure) and `some s` for a
response whose relevant text content is `s`.  Python strings are Lean
`String`s, Python `dict.get` of an optional key is `Option`, machine floats
are modelled as exact rationals `ℚ`, and Python's stable `list.sort(key=...)`
is modelled by `List.insertionSort` on the key order (any two stable sorts of
the same total preorder agree, so this is observationally faithful).
-/

namespace TicketQueuing

/-! ### Python string helpers (modelled on `List Char` for kernel-friendliness) -/

/-- Model of Python `str.strip()` on a character list: drop leading and
trailing whitespace. -/
def pyStripChars (cs : List Char) : List Char :=
  ((cs.dropWhile Char.isWhitespace).reverse.dropWhile Char.isWhitespace).reverse

/-- Model of Python `str.strip()`. -/
def pyStrip (s : String) : String := ⟨pyStripChars s.data⟩

/-- Accumulating worker for `str.split()` with no separator: split on runs of
whitespace, dropping empty pieces. -/
def pyWordsAux : List Char → List Char → List (List Char)
  | [], acc => if acc = [] then [] else [acc.reverse]
  | c :: cs, acc =>
    if c.isWhitespace then
      if acc = [] then pyWordsAux cs [] else acc.reverse :: pyWordsAux cs []
    else pyWordsAux cs (c :: acc)

/-- Model of `len(s.split())`: the number of whitespace-separated words. -/
def pyWordCount (s : String) : Nat := (pyWordsAux s.data []).length

/-- Split a character list on a separator character, keeping empty pieces. -/
def splitOnCharAux (sep : Char) : List Char → List Char → List (List Char)
  | [], acc => [acc.reverse]
  | c :: cs, acc =>
    if c = sep then acc.reverse :: splitOnCharAux sep cs []
    else splitOnCharAux sep cs (c :: acc)

/-- Model of Python `str.splitlines()` as applied in `app.py`: the input is
always pre-stripped, so it never ends in a newline and splitting on a bare
newline character is equivalent (the only divergence is `""`, which yields
`[""]` here instead of `[]`; an empty line matches no label and is inert in
the one consumer, the label-parsing fold). -/
def pyLines (s : String) : List String :=
  (splitOnCharAux '\n' s.data []).map (fun cs => ⟨cs⟩)

/-- Everything after the first colon: model of `line.split(":", 1)[1]`.
Only ever applied to lines that contain a colon (they start with a label such
as `"summary:"`), where Python's indexing is defined. -/
def afterColonAux : List Char → List Char
  | [] => []
  | c :: cs => if c = ':' then cs else afterColonAux cs

/-- Model of `line.split(":", 1)[1]` for lines known to contain a colon. -/
def afterFirstColon (s : String) : String := ⟨afterColonAux s.data⟩

/-- Model of Python `str.capitalize()`: first character upper-cased, the rest
lower-cased. -/
def pyCapitalize (s : String) : String :=
  match s.data with
  | [] => ""
  | c :: cs => ⟨c.toUpper :: cs.map Char.toLower⟩

/-- Model of Python `str.lower()`. -/
def pyLower (s : String) : String := ⟨s.data.map Char.toLower⟩

/-- Model of Python `str.startswith(pre)`. -/
def pyStartsWith (s pre : String) : Bool := pre.data.isPrefixOf s.data

/-- Numeric value of a decimal digit character. -/
def digitVal (c : Char) : Nat := c.toNat - 48

/-- Digits of a decimal group, with Python's underscore rule (an underscore
must sit between two digits), accumulating the value. -/
def parseIntDigitsAux : List Char → Nat → Option Nat
  | [], acc => some acc
  | c :: cs, acc =>
    if c.isDigit then parseIntDigitsAux cs (acc * 10 + digitVal c)
    else if c = '_' then
      match cs with
      | [] => none
      | d :: cs2 =>
        if d.isDigit then parseIntDigitsAux cs2 (acc * 10 + digitVal d) else none
    else none

/-- A non-empty decimal digit group (with underscores), as accepted by
Python's `int`. -/
def parseDigitsNE : List Char → Option Nat
  | [] => none
  | c :: cs => if c.isDigit then parseIntDigitsAux cs (digitVal c) else none

/-- Model of Python `int(s)` on decimal text: surrounding whitespace, an
optional sign, then digits (underscores allowed between digits). -/
def parsePyInt (s : String) : Option Int :=
  match pyStripChars s.data with
  | '+' :: r => (parseDigitsNE r).map (fun n => (n : Int))
  | '-' :: r => (parseDigitsNE r).map (fun n => -(n : Int))
  | r => (parseDigitsNE r).map (fun n => (n : Int))

/-- Digit group for a fractional part: value together with the number of
digits (underscores allowed between digits, not counted). -/
def parseFracAux : List Char → Nat → Nat → Option (Nat × Nat)
  | [], acc, k => some (acc, k)
  | c :: cs, acc, k =>
    if c.isDigit then parseFracAux cs (acc * 10 + digitVal c) (k + 1)
    else if c = '_' then
      match cs with
      | [] => none
      | d :: cs2 =>
        if d.isDigit then parseFracAux cs2 (acc * 10 + digitVal d) (k + 2 - 1) else none
    else none

/-- Non-empty fractional digit group. -/
def parseFracNE : List Char → Option (Nat × Nat)
  | [] => none
  | c :: cs => if c.isDigit then parseFracAux cs (digitVal c) 1 else none

/-- Signed exponent digits after an `e`/`E`. -/
def parseExp : List Char → Option Int
  | '+' :: r => (parseDigitsNE r).map (fun n => (n : Int))
  | '-' :: r => (parseDigitsNE r).map (fun n => -(n : Int))
  | r => (parseDigitsNE r).map (fun n => (n : Int))

/-- Scale a rational by a signed power of ten. -/
def scalePow10 (q : ℚ) (e : Int) : ℚ :=
  if 0 ≤ e then q * (10 : ℚ) ^ e.toNat else q / (10 : ℚ) ^ (-e).toNat

/-- Mantissa of a decimal float literal: `digits`, `digits.`, `digits.digits`
or `.digits`. -/
def parseMantissa (cs : List Char) : Option ℚ :=
  match cs.takeWhile (fun c => c ≠ '.'), cs.dropWhile (fun c => c ≠ '.') with
  | ip, [] => (parseDigitsNE ip).map (fun n => (n : ℚ))
  | ip, _ :: fp =>
    match ip, fp with
    | [], [] => none
    | [], _ =>
      (parseFracNE fp).map (fun vk => (vk.1 : ℚ) / (10 : ℚ) ^ vk.2)
    | _, [] => (parseDigitsNE ip).map (fun n => (n : ℚ))
    | _, _ =>
      match parseDigitsNE ip, parseFracNE fp with
      | some n, some vk => some ((n : ℚ) + (vk.1 : ℚ) / (10 : ℚ) ^ vk.2)
      | _, _ => none

/-- Unsigned float body: mantissa with optional exponent. -/
def parseFloatBody (cs : List Char) : Option ℚ :=
  match cs.takeWhile (fun c => c ≠ 'e' ∧ c ≠ 'E'),
        cs.dropWhile (fun c => c ≠ 'e' ∧ c ≠ 'E') with
  | mant, [] => parseMantissa mant
  | mant, _ :: ex =>
    match parseMantissa mant, parseExp ex with
    | some q, some e => some (scalePow10 q e)
    | _, _ => none

/-- Model of Python `float(s)` on finite decimal literals, as exact
rationals.  `inf`/`nan` inputs are treated as parse failures; in the one call
site this is observationally equivalent, because Python's
`int(round(...))` on an infinite or NaN mean raises inside the same `try`
block that a `ValueError` from `float` would, and both paths return 0. -/
def pyFloat (s : String) : Option ℚ :=
  match pyStripChars s.data with
  | '+' :: r => parseFloatBody r
  | '-' :: r => (parseFloatBody r).map (fun q => -q)
  | r => parseFloatBody r

/-- Model of Python `round` (banker's rounding, half to even) on an exact
rational. -/
def pyRound (q : ℚ) : Int :=
  if q - ((Rat.floor q : Int) : ℚ) < 1 / 2 then Rat.floor q
  else if 1 / 2 < q - ((Rat.floor q : Int) : ℚ) then Rat.floor q + 1
  else if Rat.floor q % 2 = 0 then Rat.floor q
  else Rat.floor q + 1

/-! ### Model of `datetime.strptime(s, "%d.%m.%y %H:%M")`

CPython's `_strptime` compiles this format to the regex
`(3[01]|[12]\d|0[1-9]|[1-9]) \. (1[0-2]|0[1-9]|[1-9]) \. (\d\d) \s+
(2[0-3]|[0-1]\d|\d) : ([0-5]\d|\d)` anchored at the start, and then demands
that the whole input is consumed and that the day is valid for the month and
(pivoted) year.  Because every separator is a non-digit, the regex consumes
each maximal digit run entirely, so matching is equivalent to tokenizing by
digit runs with length constraints (day/month/hour/minute: 1 or 2 digits,
year: exactly 2) plus the value range checks, which is what is implemented
here.  `%y` pivots as in CPython: values below 69 mean 2000+, others 1900+.
A successful parse is returned as a rank that is strictly monotone in the
lexicographic datetime order `(year, month, day, hour, minute)`. -/

/-- Take the leading run of decimal digits. -/
def spanDigits (cs : List Char) : List Char × List Char :=
  (cs.takeWhile Char.isDigit, cs.dropWhile Char.isDigit)

/-- Take the leading run of whitespace. -/
def spanWhite (cs : List Char) : List Char × List Char :=
  (cs.takeWhile Char.isWhitespace, cs.dropWhile Char.isWhitespace)

/-- Value of a plain digit run. -/
def digitsToNat (ds : List Char) : Nat := ds.foldl (fun a c => a * 10 + digitVal c) 0

/-- A run of one or two digits, as the `%d`/`%m`/`%H`/`%M` patterns accept. -/
def len12 (l : List Char) : Bool := l.length = 1 || l.length = 2

/-- Gregorian leap-year rule (as used by `datetime`). -/
def isLeap (y : Nat) : Bool := y % 4 = 0 && (y % 100 ≠ 0 || y % 400 = 0)

/-- Days in a month of a given year, as `datetime` validates them. -/
def daysInMonth (y m : Nat) : Nat :=
  if m = 2 then (if isLeap y then 29 else 28)
  else if m = 4 ∨ m = 6 ∨ m = 9 ∨ m = 11 then 30
  else 31

/-- Strictly monotone encoding of `(year, month, day, hour, minute)` in
datetime order (each later field is below its mixed-radix base). -/
def mkRank (y m d hh mm : Nat) : Nat := (((y * 13 + m) * 32 + d) * 24 + hh) * 60 + mm

/-- The rank of `datetime.min`, i.e. year 1, January 1st, 00:00. -/
def datetimeMinRank : Nat := mkRank 1 1 1 0 0

/-- The `%y` pivot of CPython: two-digit years below 69 mean 2000+, the rest
1900+. -/
def pivotYear (yv : Nat) : Nat := if yv < 69 then 2000 + yv else 1900 + yv

/-- Model of `datetime.strptime(s, "%d.%m.%y %H:%M")`: `none` when CPython
raises `ValueError`, otherwise the datetime's rank. -/
def strptimeDMYHM (s : String) : Option Nat :=
  let cs := s.data
  let dd := spanDigits cs
  match dd.2 with
  | '.' :: r2 =>
    let mm := spanDigits r2
    match mm.2 with
    | '.' :: r4 =>
      let yy := spanDigits r4
      let ws := spanWhite yy.2
      let hh := spanDigits ws.2
      match hh.2 with
      | ':' :: r8 =>
        let nn := spanDigits r8
        if nn.2 = [] ∧ len12 dd.1 ∧ len12 mm.1 ∧ yy.1.length = 2 ∧ ws.1 ≠ [] ∧
            len12 hh.1 ∧ len12 nn.1 then
          let d := digitsToNat dd.1
          let m := digitsToNat mm.1
          let year := pivotYear (digitsToNat yy.1)
          let hour := digitsToNat hh.1
          let minute := digitsToNat nn.1
          if 1 ≤ d ∧ 1 ≤ m ∧ m ≤ 12 ∧ d ≤ daysInMonth year m ∧ hour ≤ 23 ∧ minute ≤ 59 then
            some (mkRank year m d hour minute)
          else none
        else none
      | _ => none
    | _ => none
  | _ => none

/-! ### Data model

Optional JSON/dict keys are `Option String`; Python `d.get(k)` is the field
itself, `d.get(k, dflt)` is `Option.getD`.  A value is "truthy" when it is a
present, non-empty string. -/

/-- Truthiness of an optional string (`if cid:` in Python). -/
def truthyOpt (o : Option String) : Bool :=
  match o with
  | none => false
  | some s => s ≠ ""

/-- One record object in the fetched client payload (source-specific field
names, any of which may be absent). -/
structure RawRecord where
  cnb_support_ticket_number : Option String
  cnb_support_ticket_title : Option String
  cnb_support_ticket_content : Option String
  cnb_created_datetime : Option String
  cnb_support_ticket_priority : Option String
deriving DecidableEq, Repr

/-- A value in the fetched payload dict: either scalar client metadata
(skipped by the `isinstance(item, dict)` check) or a ticket record. -/
inductive FetchItem where
  | scalar (value : String)
  | record (r : RawRecord)
deriving DecidableEq, Repr

/-- The parsed fetch payload for one client: the `cnb_title` metadata entry
plus the items iterated by `data.items()` (in dict insertion order). -/
structure FetchedData where
  cnb_title : Option String
  items : List FetchItem
deriving DecidableEq, Repr

/-- One caller-submitted entry of `new_tickets`. -/
structure NewTicketIn where
  client_id : Option String
  ticket_number : Option String
  title : Option String
  content : Option String
  created_at : Option String
  priority : Option String
deriving DecidableEq, Repr

/-- The uniform staging shape handed to enrichment (`valid_tickets` /
`new_prepared` in the source). -/
structure StagedTicket where
  ticket_number : String
  title : String
  content : String
  created_at : String
  priority : String
deriving DecidableEq, Repr

/-- A fully enriched ticket dict as appended to `client_tickets`. -/
structure EnrichedTicket where
  ticket_number : String
  client_id : String
  client_name : String
  title : String
  summary : String
  priority : String
  urgency : Int
  created_at : String
  content : String
deriving DecidableEq, Repr

/-- One entry of `client_blocks`. -/
structure ClientBlock where
  sentiment_score : Int
  client_id : String
  tickets : List EnrichedTicket
deriving DecidableEq, Repr

/-- A ticket as emitted in the final output (after popping `content`,
`urgency` and `created_at`; `sentiment_score` is attached only on
multi-client requests). -/
structure OutTicket where
  ticket_number : String
  client_id : String
  client_name : String
  title : String
  summary : String
  priority : String
  sentiment_score : Option Int
deriving DecidableEq, Repr

/-- The request body of the `/prioritize` endpoint. -/
structure RequestIn where
  cnb_ids : List String
  new_tickets : List NewTicketIn
deriving DecidableEq, Repr

/-- The external world: the record-fetch endpoint and the two oracle calls.
`none` models the call raising (transport/protocol failure); for `fetch` it
also covers an unparsable JSON body, since both paths skip the client the
same way.  `enrich` is keyed by the staged ticket (the prompt is a function
of its title, content and created time), `sentiment` by the combined chunk
text interpolated into the sentiment prompt. -/
structure Env where
  fetch : String → Option FetchedData
  enrich : StagedTicket → Option String
  sentiment : String → Option String

/-! ### Enrichment oracle client (`generate_summary_and_priority`) -/

/-- The `priority_order` dict. -/
def priority_order : List (String × Nat) :=
  [("Urgent", 0), ("High", 1), ("Medium", 2), ("Low", 3)]

/-- Dict lookup `priority_order[p]` as an option. -/
def priorityLookup (p : String) : Option Nat :=
  (priority_order.find? (fun kv => kv.1 = p)).map (fun kv => kv.2)

/-- Membership test `p in priority_order`. -/
def inPriorityOrder (p : String) : Bool := (priorityLookup p).isSome

/-- `priority_order.get(p, 4)`. -/
def priorityRank (p : String) : Nat := (priorityLookup p).getD 4

/-- One iteration of the response-parsing loop over `output.splitlines()`,
threading the `(summary, priority, urgency)` accumulator. -/
def enrichStep (acc : String × String × Int) (line : String) : String × String × Int :=
  if pyStartsWith (pyLower line) "summary:" then
    (pyStrip (afterFirstColon line), acc.2.1, acc.2.2)
  else if pyStartsWith (pyLower line) "priority:" then
    let p := pyCapitalize (pyStrip (afterFirstColon line))
    if inPriorityOrder p then (acc.1, p, acc.2.2) else acc
  else if pyStartsWith (pyLower line) "urgency:" then
    match parsePyInt (pyStrip (afterFirstColon line)) with
    | some n => (acc.1, acc.2.1, n)
    | none => (acc.1, acc.2.1, 6)
  else acc

/-- Parse a successful oracle response into `(summary, priority, urgency)`,
starting from the defaults `("N/A", "Low", 6)`. -/
def parseEnrichOutput (output : String) : String × String × Int :=
  (pyLines (pyStrip output)).foldl enrichStep ("N/A", "Low", 6)

/-- `generate_summary_and_priority`: on any failure of the oracle call the
`except` clause returns the fixed fallback triple. -/
def generate_summary_and_priority (env : Env) (t : StagedTicket) : String × String × Int :=
  match env.enrich t with
  | none => ("Could not summarize", "Low", 6)
  | some output => parseEnrichOutput output

/-! ### Chunking and sentiment (`chunk_tickets`, `get_sentiment_score`) -/

/-- `len(f"{ticket['title']} {ticket['content']}".split())`. -/
def numTokens (t : EnrichedTicket) : Nat := pyWordCount (t.title ++ " " ++ t.content)

/-- The loop of `chunk_tickets`, threading `chunks`, the current `chunk` and
its running `token_count`. -/
def chunkAux (m : Nat) :
    List EnrichedTicket → List (List EnrichedTicket) → List EnrichedTicket → Nat →
    List (List EnrichedTicket)
  | [], chunks, chunk, _ => if chunk = [] then chunks else chunks ++ [chunk]
  | t :: ts, chunks, chunk, cnt =>
    if cnt + numTokens t > m then chunkAux m ts (chunks ++ [chunk]) [t] (numTokens t)
    else chunkAux m ts chunks (chunk ++ [t]) (cnt + numTokens t)

/-- `chunk_tickets(tickets, max_tokens)`. -/
def chunk_tickets (tickets : List EnrichedTicket) (max_tokens : Nat) :
    List (List EnrichedTicket) :=
  chunkAux max_tokens tickets [] [] 0

/-- The `combined` text built for one sentiment chunk. -/
def combinedText (chunk : List EnrichedTicket) : String :=
  String.intercalate "\n" (chunk.map (fun t => "Title: " ++ t.title ++ "\nContent: " ++ t.content))

/-- The per-chunk loop of `get_sentiment_score`: collect all chunk scores, or
`none` as soon as a chunk's oracle call raises or its response does not parse
as a float (the exception aborts the whole loop). -/
def collectScores (env : Env) : List (List EnrichedTicket) → Option (List ℚ)
  | [] => some []
  | c :: cs =>
    match env.sentiment (combinedText c) with
    | none => none
    | some resp =>
      match pyFloat (pyStrip resp) with
      | none => none
      | some q => (collectScores env cs).map (fun l => q :: l)

/-- `get_sentiment_score`: average the chunk scores; every exception path
(oracle failure, non-numeric response, and the `ZeroDivisionError` on an
empty ticket list) returns 0. -/
def get_sentiment_score (env : Env) (client_id : String)
    (tickets : List EnrichedTicket) : Int :=
  match collectScores env (chunk_tickets tickets 3000) with
  | none => 0
  | some scores =>
    if scores.length = 0 then 0 else pyRound (scores.sum / (scores.length : ℚ))

/-! ### Staging, merge and ranking inside `prioritize` -/

/-- `data.get("cnb_title", "Unknown")`. -/
def clientNameOf (data : FetchedData) : String := data.cnb_title.getD "Unknown"

/-- The record-normalization body of the fetch loop: skip non-dict items and
records with a falsy `cnb_support_ticket_number` or empty content, otherwise
map the source-specific fields to the uniform staging shape. -/
def stagedOfRecord (r : RawRecord) : Option StagedTicket :=
  if truthyOpt r.cnb_support_ticket_number ∧ r.cnb_support_ticket_content.getD "" ≠ "" then
    some
      { ticket_number := r.cnb_support_ticket_number.getD ""
        title := r.cnb_support_ticket_title.getD ""
        content := r.cnb_support_ticket_content.getD ""
        created_at := r.cnb_created_datetime.getD ""
        priority := r.cnb_support_ticket_priority.getD "Low" }
  else none

/-- One iteration of the record loop: non-dict items contribute nothing. -/
def stagedOfItem (item : FetchItem) : Option StagedTicket :=
  match item with
  | .scalar _ => none
  | .record r => stagedOfRecord r

/-- `valid_tickets`: the staged externally-fetched tickets of one payload. -/
def stagedExternal (data : FetchedData) : List StagedTicket :=
  data.items.filterMap stagedOfItem

/-- Build one enriched external ticket from its staging record and oracle
triple: a source-declared priority that is already a recognized value wins
over the oracle's suggestion. -/
def enrichExternalOne (env : Env) (cnb_id client_name : String)
    (t : StagedTicket) : EnrichedTicket :=
  let spu := generate_summary_and_priority env t
  { ticket_number := t.ticket_number
    client_id := cnb_id
    client_name := client_name
    title := t.title
    summary := spu.1
    priority := if inPriorityOrder t.priority then t.priority else spu.2.1
    urgency := spu.2.2
    created_at := t.created_at
    content := t.content }

/-- `zip(valid_tickets, executor.map(...))`: the executor's `map` returns
results in input order, so the whole step is an order-preserving map. -/
def enrichExternal (env : Env) (cnb_id client_name : String)
    (ts : List StagedTicket) : List EnrichedTicket :=
  ts.map (enrichExternalOne env cnb_id client_name)

/-- Stage one caller-submitted ticket, with `n` the synthetic-number value
`len(client_tickets) + idx + 1` computed at that point. -/
def prepStageOne (n : Nat) (nt : NewTicketIn) : StagedTicket :=
  { ticket_number := nt.ticket_number.getD ("NEW-" ++ toString n)
    title := nt.title.getD ""
    content := nt.content.getD ""
    created_at := nt.created_at.getD ""
    priority := nt.priority.getD "" }

/-- The `enumerate` comprehension building `new_prepared`, with `base` the
length of `client_tickets` when it runs. -/
def prepareNewAux (base idx : Nat) : List NewTicketIn → List StagedTicket
  | [] => []
  | nt :: rest => prepStageOne (base + idx + 1) nt :: prepareNewAux base (idx + 1) rest

/-- `new_prepared`. -/
def prepare_new (base : Nat) (nts : List NewTicketIn) : List StagedTicket :=
  prepareNewAux base 0 nts

/-- Build one enriched caller-submitted ticket: the caller's declared
priority is capitalized and wins only if it is then a recognized value. -/
def enrichNewOne (env : Env) (cnb_id client_name : String)
    (t : StagedTicket) : EnrichedTicket :=
  let spu := generate_summary_and_priority env t
  let input_priority := pyCapitalize t.priority
  { ticket_number := t.ticket_number
    client_id := cnb_id
    client_name := client_name
    title := t.title
    summary := spu.1
    priority := if inPriorityOrder input_priority then input_priority else spu.2.1
    urgency := spu.2.2
    created_at := t.created_at
    content := t.content }

/-- `zip(new_prepared, executor.map(...))` for caller-submitted tickets. -/
def enrichNew (env : Env) (cnb_id client_name : String)
    (ts : List StagedTicket) : List EnrichedTicket :=
  ts.map (enrichNewOne env cnb_id client_name)

/-- `new_tickets_map.get(cnb_id, [])`: grouping by truthy `client_id` into an
insertion-ordered dict and looking one key up is the same as filtering the
input list for that key (per-key order is input order). -/
def newForClient (cnb_id : String) (nts : List NewTicketIn) : List NewTicketIn :=
  nts.filter (fun nt => truthyOpt nt.client_id && nt.client_id.getD "" = cnb_id)

/-- The third sort-key component: `datetime.min` when `created_at` is falsy,
otherwise the parsed timestamp.  The `getD 0` branch is never read: when any
non-empty `created_at` fails to parse, the sort raises and `processClient`
returns `none` instead of using the keys. -/
def timeKeyD (s : String) : Nat :=
  if s = "" then datetimeMinRank else (strptimeDMYHM s).getD 0

/-- `sort_key`: the tuple `(priority rank, urgency, created time)`. -/
def ticketKey (t : EnrichedTicket) : Nat × Int × Nat :=
  (priorityRank t.priority, t.urgency, timeKeyD t.created_at)

/-- Lexicographic order on sort-key tuples (Python tuple comparison). -/
def keyLE (a b : Nat × Int × Nat) : Prop :=
  a.1 < b.1 ∨ (a.1 = b.1 ∧ (a.2.1 < b.2.1 ∨ (a.2.1 = b.2.1 ∧ a.2.2 ≤ b.2.2)))

instance : DecidableRel keyLE := fun a b =>
  inferInstanceAs (Decidable (_ ∨ _))

/-- The ticket-level sort order induced by `sort_key`. -/
def rTicket (a b : EnrichedTicket) : Prop := keyLE (ticketKey a) (ticketKey b)

instance : DecidableRel rTicket := fun a b =>
  inferInstanceAs (Decidable (keyLE _ _))

instance : IsTotal (Nat × Int × Nat) keyLE :=
  ⟨by intro a b; unfold keyLE; omega⟩

instance : IsTrans (Nat × Int × Nat) keyLE :=
  ⟨by intro a b c; unfold keyLE; omega⟩

instance : IsTotal EnrichedTicket rTicket :=
  ⟨fun a b => IsTotal.total (r := keyLE) _ _⟩

instance : IsTrans EnrichedTicket rTicket :=
  ⟨fun _ _ _ hab hbc => Trans.trans (r := keyLE) hab hbc⟩

/-- Whether computing all sort keys succeeds: every ticket's `created_at` is
empty or parses; otherwise `strptime` raises inside `sort` (Python computes
the key of every element up front) and the per-client `except` skips the
client. -/
def createdOk (s : String) : Bool := s = "" || (strptimeDMYHM s).isSome

/-- All sort keys of a ticket list are computable. -/
def sortOkB (ts : List EnrichedTicket) : Bool := ts.all (fun t => createdOk t.created_at)

/-- The staged caller-submitted tickets of one client, with the synthetic
number base `len(client_tickets)` (the enriched external tickets appended so
far). -/
def stagedNewOf (env : Env) (cnb_id : String) (data : FetchedData)
    (nts : List NewTicketIn) : List StagedTicket :=
  prepare_new (enrichExternal env cnb_id (clientNameOf data) (stagedExternal data)).length
    (newForClient cnb_id nts)

/-- `client_tickets` just before sentiment scoring and sorting: enriched
external tickets followed by enriched caller-submitted tickets. -/
def clientTicketsOf (env : Env) (cnb_id : String) (data : FetchedData)
    (nts : List NewTicketIn) : List EnrichedTicket :=
  enrichExternal env cnb_id (clientNameOf data) (stagedExternal data) ++
    enrichNew env cnb_id (clientNameOf data) (stagedNewOf env cnb_id data nts)

/-- The arguments of the two `executor.map(generate_summary_and_priority, _)`
calls of one client, in call order: every staged ticket here has its
enrichment oracle call issued. -/
def traceOf (env : Env) (cnb_id : String) (data : FetchedData)
    (nts : List NewTicketIn) : List StagedTicket :=
  stagedExternal data ++ stagedNewOf env cnb_id data nts

/-- One iteration of the per-client loop: the resulting `client_blocks` entry
(or `none` when the client is skipped by a fetch/parse failure or by
`strptime` raising during the sort), paired with the enrichment calls that
were issued. -/
def processClient (env : Env) (multi : Bool) (nts : List NewTicketIn)
    (cnb_id : String) : Option ClientBlock × List StagedTicket :=
  match env.fetch cnb_id with
  | none => (none, [])
  | some data =>
    let ct := clientTicketsOf env cnb_id data nts
    let sentiment := if multi then get_sentiment_score env cnb_id ct else 0
    if sortOkB ct then
      (some
        { sentiment_score := sentiment
          client_id := cnb_id
          tickets := List.insertionSort rTicket ct }, traceOf env cnb_id data nts)
    else (none, traceOf env cnb_id data nts)

/-- The client-level sort order: ascending in the key `-sentiment_score`. -/
def rBlock (a b : ClientBlock) : Prop := -a.sentiment_score ≤ -b.sentiment_score

instance : DecidableRel rBlock := fun a b =>
  inferInstanceAs (Decidable (_ ≤ _))

instance : IsTotal ClientBlock rBlock := ⟨fun a b => Int.le_total _ _⟩

instance : IsTrans ClientBlock rBlock := ⟨fun _ _ _ => Int.le_trans⟩

/-- `len(cnb_ids) > 1`: whether the request is multi-client. -/
def multiOf (req : RequestIn) : Bool := 1 < req.cnb_ids.length

/-- Final emission of one ticket: attach the block's `sentiment_score` only
on multi-client requests and pop `content`, `urgency` and `created_at`. -/
def emitTicket (multi : Bool) (score : Int) (t : EnrichedTicket) : OutTicket :=
  { ticket_number := t.ticket_number
    client_id := t.client_id
    client_name := t.client_name
    title := t.title
    summary := t.summary
    priority := t.priority
    sentiment_score := if multi then some score else none }

/-- `client_blocks` after the per-client loop and the client-level sort:
successful blocks in request order, sorted descending by `sentiment_score`
(stably, via the key `-sentiment_score`) only on multi-client requests. -/
def sortedBlocksOf (env : Env) (req : RequestIn) : List ClientBlock :=
  let blocks :=
    (req.cnb_ids.map (processClient env (multiOf req) req.new_tickets)).filterMap
      (fun r => r.1)
  if multiOf req then List.insertionSort rBlock blocks else blocks

/-- `final_output`: the flattened emission loop over the sorted blocks. -/
def outputOf (env : Env) (req : RequestIn) : List OutTicket :=
  (sortedBlocksOf env req).flatMap
    (fun b => b.tickets.map (emitTicket (multiOf req) b.sentiment_score))

/-- All enrichment oracle calls issued while serving the request, per client
in request order. -/
def requestTrace (env : Env) (req : RequestIn) : List StagedTicket :=
  ((req.cnb_ids.map (processClient env (multiOf req) req.new_tickets)).map
      (fun r => r.2)).flatten

/-- The `/prioritize` endpoint, paired with the full sequence of enrichment
oracle calls (per client, in request order).  `Except.error` is the 400
response for a missing/empty `cnb_ids` list. -/
def prioritizeWithTrace (env : Env) (req : RequestIn) :
    Except String (List OutTicket) × List StagedTicket :=
  if req.cnb_ids = [] then (Except.error "Send a list of CNB IDs in 'cnb_ids'", [])
  else (Except.ok (outputOf env req), requestTrace env req)

/-- The `/prioritize` endpoint's response. -/
def prioritize (env : Env) (req : RequestIn) : Except String (List OutTicket) :=
  (prioritizeWithTrace env req).1

/-- The requested client ids whose per-client processing succeeds (produces a
`client_blocks` entry). -/
def successfulIds (env : Env) (req : RequestIn) : List String :=
  req.cnb_ids.filter (fun cid =>
    ((processClient env (multiOf req) req.new_tickets cid).1).isSome)

deriving instance DecidableEq for Except

/-! ### Derived predicates used to state the claims -/

/-- A sentiment chunk whose oracle call fails: the call raises, or its
response is not parseable as a float. -/
def chunkFails (env : Env) (c : List EnrichedTicket) : Prop :=
  env.sentiment (combinedText c) = none ∨
    ∃ s, env.sentiment (combinedText c) = some s ∧ pyFloat (pyStrip s) = none

/-- Within a `(priority rank, urgency)` tier, a ticket with an empty
`created_at` never comes after one with a non-empty `created_at`: read as a
`Pairwise` relation, `a` before `b` in the same tier with `b`'s timestamp
empty forces `a`'s to be empty too. -/
def emptyCreatedFirst (a b : EnrichedTicket) : Prop :=
  priorityRank a.priority = priorityRank b.priority ∧ a.urgency = b.urgency ∧
      b.created_at = "" →
    a.created_at = ""

/-- Whether a fetched payload item survives the record-validity check of the
fetch loop (non-record metadata is not a ticket record and is kept — it is
skipped later anyway). -/
def keepValidItem (item : FetchItem) : Bool :=
  match item with
  | .scalar _ => true
  | .record r =>
    truthyOpt r.cnb_support_ticket_number && r.cnb_support_ticket_content.getD "" ≠ ""

/-- Remove the ticket records lacking a truthy number or non-empty content
from a fetched payload. -/
def dropInvalidRecords (data : FetchedData) : FetchedData :=
  { data with items := data.items.filter keepValidItem }

/-- The same environment with every fetch payload pre-filtered to valid
records. -/
def filterFetchEnv (env : Env) : Env :=
  { env with fetch := fun cid => (env.fetch cid).map dropInvalidRecords }

/-! ### Concrete instances used in counterexamples and witnesses -/

/-- A minimal enriched ticket used as a template. -/
def tinyT : EnrichedTicket :=
  { ticket_number := "T1", client_id := "A", client_name := "Acme", title := "t",
    summary := "s", priority := "Low", urgency := 6, created_at := "", content := "c" }

/-- `n` copies of the two characters `w` and space. -/
def wChars : Nat → List Char
  | 0 => []
  | n + 1 => 'w' :: ' ' :: wChars n

/-- A ticket whose title alone has 3001 whitespace-separated words, so its
token count exceeds the 3000-token chunk budget. -/
def bigT : EnrichedTicket :=
  { tinyT with title := ⟨wChars 3001⟩, content := "" }

/-- An environment in which every external call fails. -/
def envFail : Env := { fetch := fun _ => none, enrich := fun _ => none, sentiment := fun _ => none }

/-- A staged ticket used to exercise the enrichment client. -/
def stagedW : StagedTicket :=
  { ticket_number := "T1", title := "t", content := "c", created_at := "", priority := "" }

/-- An environment whose enrichment oracle answers with an out-of-range
urgency. -/
def envU99 : Env := { envFail with enrich := fun _ => some "Urgency: 99" }

/-- An environment whose sentiment oracle answers `100` for every chunk. -/
def envS100 : Env := { envFail with sentiment := fun _ => some "100" }

/-- An environment whose sentiment oracle answers `7` for every chunk. -/
def envS7 : Env := { envFail with sentiment := fun _ => some "7" }

/-- A one-record fetch payload with the given client name, ticket number,
title and content (empty created time, priority `Low`). -/
def mkData (nm num ti co : String) : FetchedData :=
  { cnb_title := some nm,
    items := [FetchItem.record
      { cnb_support_ticket_number := some num, cnb_support_ticket_title := some ti,
        cnb_support_ticket_content := some co, cnb_created_datetime := none,
        cnb_support_ticket_priority := some "Low" }] }

/-- Two clients; client `A`'s only chunk scores 3, client `B`'s scores 8. -/
def envC1 : Env :=
  { fetch := fun cid =>
      if cid = "A" then some (mkData "CA" "A1" "ta" "xa")
      else if cid = "B" then some (mkData "CB" "B1" "tb" "xb") else none,
    enrich := fun _ => none,
    sentiment := fun c => if c = "Title: ta\nContent: xa" then some "3" else some "8" }

/-- The multi-client request for `envC1`. -/
def reqC1 : RequestIn := { cnb_ids := ["A", "B"], new_tickets := [] }

/-- The output of `prioritize envC1 reqC1`: all of B's tickets (score 8)
before all of A's (score 3). -/
def outC1 : List OutTicket :=
  [{ ticket_number := "B1", client_id := "B", client_name := "CB", title := "tb",
     summary := "Could not summarize", priority := "Low", sentiment_score := some 8 },
   { ticket_number := "A1", client_id := "A", client_name := "CA", title := "ta",
     summary := "Could not summarize", priority := "Low", sentiment_score := some 3 }]

/-- A fetch payload containing one content-bearing ticket record whose
`created_at` is non-empty but unparsable. -/
def dataC3 : FetchedData :=
  { cnb_title := some "Acme",
    items := [FetchItem.record
      { cnb_support_ticket_number := some "T1", cnb_support_ticket_title := some "t",
        cnb_support_ticket_content := some "c", cnb_created_datetime := some "garbage",
        cnb_support_ticket_priority := some "High" }] }

/-- Environment serving `dataC3` for client `A`. -/
def envC3 : Env := { envFail with fetch := fun cid => if cid = "A" then some dataC3 else none }

/-- A single-client request for client `A` with no new tickets. -/
def reqC3 : RequestIn := { cnb_ids := ["A"], new_tickets := [] }

/-- A fetch payload with exactly one valid external ticket record. -/
def dataC4 : FetchedData :=
  { cnb_title := some "Acme",
    items := [FetchItem.record
      { cnb_support_ticket_number := some "T1", cnb_support_ticket_title := some "t",
        cnb_support_ticket_content := some "c", cnb_created_datetime := none,
        cnb_support_ticket_priority := none }] }

/-- Environment serving `dataC4` for client `A`. -/
def envC4 : Env := { envFail with fetch := fun cid => if cid = "A" then some dataC4 else none }

/-- A caller-submitted ticket for client `A` without a `ticket_number`. -/
def ntC4 : NewTicketIn :=
  { client_id := some "A", ticket_number := none, title := some "n",
    content := some "nc", created_at := none, priority := none }

/-- Request: client `A` (who has one external ticket) plus `ntC4`. -/
def reqC4 : RequestIn := { cnb_ids := ["A"], new_tickets := [ntC4] }

/-- The output of `prioritize envC4 reqC4`: the new ticket is numbered
`NEW-2`, not `NEW-1`. -/
def outC4 : List OutTicket :=
  [{ ticket_number := "T1", client_id := "A", client_name := "Acme", title := "t",
     summary := "Could not summarize", priority := "Low", sentiment_score := none },
   { ticket_number := "NEW-2", client_id := "A", client_name := "Acme", title := "n",
     summary := "Could not summarize", priority := "Low", sentiment_score := none }]

/-- A fetch payload with a client name and no ticket records. -/
def dataC6 : FetchedData := { cnb_title := some "Acme", items := [] }

/-- Environment serving the empty payload `dataC6` for client `A`. -/
def envC6 : Env := { envFail with fetch := fun cid => if cid = "A" then some dataC6 else none }

/-- A caller-submitted ticket for client `A` with no content at all. -/
def ntC6 : NewTicketIn :=
  { client_id := some "A", ticket_number := none, title := some "t",
    content := none, created_at := none, priority := none }

/-- Request: client `A` plus the content-less caller ticket. -/
def reqC6 : RequestIn := { cnb_ids := ["A"], new_tickets := [ntC6] }

/-- The single output ticket of `prioritize envC6 reqC6` — a caller-submitted
ticket that lacked content yet was emitted. -/
def outTicketC6 : OutTicket :=
  { ticket_number := "NEW-1", client_id := "A", client_name := "Acme", title := "t",
    summary := "Could not summarize", priority := "Low", sentiment_score := none }

/-- A caller-submitted ticket for client `A` whose `created_at` is non-empty
but unparsable, which makes the client's sort raise after enrichment. -/
def ntC9 : NewTicketIn :=
  { client_id := some "A", ticket_number := none, title := some "t",
    content := some "c", created_at := some "bad", priority := none }

/-- Request: client `A` (empty payload) plus `ntC9`. -/
def reqC9 : RequestIn := { cnb_ids := ["A"], new_tickets := [ntC9] }

/-- The staged form of `ntC9` as passed to the enrichment oracle. -/
def stagedC9 : StagedTicket :=
  { ticket_number := "NEW-1", title := "t", content := "c", created_at := "bad", priority := "" }

/-- A payload with two valid records: `T1` with a parsable timestamp and `T2`
with an empty one, both priority `High`. -/
def dataW3 : FetchedData :=
  { cnb_title := some "W3",
    items :=
      [FetchItem.record
        { cnb_support_ticket_number := some "T1", cnb_support_ticket_title := some "t1",
          cnb_support_ticket_content := some "c1",
          cnb_created_datetime := some "01.02.21 10:30",
          cnb_support_ticket_priority := some "High" },
      FetchItem.record
        { cnb_support_ticket_number := some "T2", cnb_support_ticket_title := some "t2",
          cnb_support_ticket_content := some "c2", cnb_created_datetime := some "",
          cnb_support_ticket_priority := some "High" }] }

/-- Environment serving `dataW3` for client `A`. -/
def envW3 : Env := { envFail with fetch := fun cid => if cid = "A" then some dataW3 else none }

/-- The client block produced for `dataW3`: the empty-timestamp ticket `T2`
sorts before `T1` inside the same `(priority, urgency)` tier. -/
def blockW3 : ClientBlock :=
  { sentiment_score := 0, client_id := "A",
    tickets :=
      [{ ticket_number := "T2", client_id := "A", client_name := "W3", title := "t2",
         summary := "Could not summarize", priority := "High", urgency := 6,
         created_at := "", content := "c2" },
       { ticket_number := "T1", client_id := "A", client_name := "W3", title := "t1",
         summary := "Could not summarize", priority := "High", urgency := 6,
         created_at := "01.02.21 10:30", content := "c1" }] }

/-! ## Theorems -/

/-! ### Chunking lemmas -/

theorem chunkAux_flatten (m : Nat) :
    ∀ (ts : List EnrichedTicket) (chunks : List (List EnrichedTicket))
      (chunk : List EnrichedTicket) (cnt : Nat),
      (chunkAux m ts chunks chunk cnt).flatten = chunks.flatten ++ chunk ++ ts := by
  intro ts
  induction ts with
  | nil =>
    intro chunks chunk cnt
    by_cases h : chunk = [] <;> simp [chunkAux, h]
  | cons t ts ih =>
    intro chunks chunk cnt
    by_cases h : cnt + numTokens t > m
    · simp [chunkAux, h, ih]
    · simp [chunkAux, h, ih]

theorem chunkAux_tail_nonempty (m : Nat) :
    ∀ (ts : List EnrichedTicket) (chunks : List (List EnrichedTicket))
      (chunk : List EnrichedTicket) (cnt : Nat),
      (∀ c ∈ chunks.tail, c ≠ []) → (chunks ≠ [] → chunk ≠ []) →
      ∀ c ∈ (chunkAux m ts chunks chunk cnt).tail, c ≠ [] := by
  intro ts
  induction ts with
  | nil =>
    intro chunks chunk cnt h1 h2 c hc
    by_cases h : chunk = []
    · simp [chunkAux, h] at hc
      exact h1 c hc
    · simp [chunkAux, h] at hc
      match chunks, hc with
      | [], hc => simp at hc
      | x :: xs, hc =>
        simp at hc
        rcases hc with hc | hc
        · exact h1 c (by simpa using hc)
        · simpa [hc] using h
  | cons t ts ih =>
    intro chunks chunk cnt h1 h2 c hc
    by_cases h : cnt + numTokens t > m
    · refine ih _ _ _ ?_ ?_ c (by simpa [chunkAux, h] using hc)
      · intro d hd
        match chunks, hd with
        | [], hd => simp at hd
        | x :: xs, hd =>
          simp at hd
          rcases hd with hd | hd
          · exact h1 d (by simpa using hd)
          · simpa [hd] using h2 (by simp)
      · intro _
        simp
    · refine ih _ _ _ h1 ?_ c (by simpa [chunkAux, h] using hc)
      intro hne
      simp

theorem wordsAux_wChars (n : Nat) (tail : List Char) :
    pyWordsAux (wChars n ++ tail) [] = List.replicate n ['w'] ++ pyWordsAux tail [] := by
  induction n with
  | zero => simp [wChars]
  | succ k ih =>
    simp only [wChars, List.cons_append, List.replicate_succ]
    rw [pyWordsAux, if_neg (by decide)]
    rw [pyWordsAux, if_pos (by decide), if_neg (by decide)]
    simp [ih]

theorem numTokens_bigT : numTokens bigT = 3001 := by
  have h : (bigT.title ++ " " ++ bigT.content).data = wChars 3001 ++ [' '] := by
    show ((⟨wChars 3001⟩ : String) ++ " " ++ "").data = wChars 3001 ++ [' ']
    rw [String.data_append, String.data_append]
    show wChars 3001 ++ [' '] ++ [] = wChars 3001 ++ [' ']
    rw [List.append_nil]
  unfold numTokens pyWordCount
  rw [h, wordsAux_wChars]
  rw [show pyWordsAux [' '] [] = ([] : List (List Char)) from by decide]
  rw [List.append_nil, List.length_replicate]

theorem chunk_single_overflow (t : EnrichedTicket) (m : Nat) (h : m < numTokens t) :
    chunk_tickets [t] m = [[], [t]] := by
  simp [chunk_tickets, chunkAux, h]

/-- C10 counterexample: on a single ticket whose own text exceeds the 3000
token budget, `chunk_tickets` returns an empty first chunk, so it is not the
case that every returned chunk is non-empty. -/
theorem chunk_tickets_empty_chunk_cex :
    chunk_tickets [bigT] 3000 = [[], [bigT]] ∧ [] ∈ chunk_tickets [bigT] 3000 := by
  have h := chunk_single_overflow bigT 3000 (by rw [numTokens_bigT]; omega)
  refine ⟨h, ?_⟩
  rw [h]
  exact List.mem_cons_self _ _

/-- C10 (amended): for every ticket list and budget, the concatenation of the
chunks returned by `chunk_tickets` is the input list (no ticket lost,
duplicated or reordered), and every chunk other than the first is non-empty
(the first chunk is empty exactly when the first ticket alone exceeds the
budget). -/
theorem chunk_tickets_flatten_and_tail_nonempty (tickets : List EnrichedTicket) (m : Nat) :
    (chunk_tickets tickets m).flatten = tickets ∧
      ∀ c ∈ (chunk_tickets tickets m).tail, c ≠ [] := by
  constructor
  · simpa using chunkAux_flatten m tickets [] [] 0
  · exact chunkAux_tail_nonempty m tickets [] [] 0 (by simp) (by simp)

/-- C10 amended-theorem witness: on a concrete three-ticket list with budget
10 the chunks flatten back to the input and every chunk after the first is
non-empty. -/
theorem chunk_tickets_flatten_witness :
    (chunk_tickets [tinyT, bigT, tinyT] 10).flatten = [tinyT, bigT, tinyT] ∧
      ∀ c ∈ (chunk_tickets [tinyT, bigT, tinyT] 10).tail, c ≠ [] :=
  chunk_tickets_flatten_and_tail_nonempty [tinyT, bigT, tinyT] 10

/-! ### Enrichment client (C7, C5) -/

/-- C7: the enrichment call never propagates an error to its caller — for
every failure of the oracle request (exception of any kind, modelled as the
call returning `none`), `generate_summary_and_priority` returns exactly the
fallback triple `("Could not summarize", "Low", 6)`. -/
theorem generate_summary_fallback (env : Env) (t : StagedTicket)
    (h : env.enrich t = none) :
    generate_summary_and_priority env t = ("Could not summarize", "Low", 6) := by
  unfold generate_summary_and_priority
  rw [h]

/-- C7 witness: in the all-failing environment the fallback triple is
returned for a concrete ticket. -/
theorem generate_summary_fallback_witness :
    generate_summary_and_priority envFail stagedW = ("Could not summarize", "Low", 6) :=
  generate_summary_fallback envFail stagedW rfl

/-- C5 counterexample: with the oracle response `"Urgency: 99"` the urgency
attached by enrichment is 99, which is not in `[1, 6]` — there is no range
check on the parsed integer. -/
theorem urgency_range_cex :
    (generate_summary_and_priority envU99 stagedW).2.2 = 99 ∧
      ¬((1 : Int) ≤ (generate_summary_and_priority envU99 stagedW).2.2 ∧
        (generate_summary_and_priority envU99 stagedW).2.2 ≤ 6) := by
  decide

theorem enrichStep_urgency_cases (acc : String × String × Int) (l : String) :
    (enrichStep acc l).2.2 = acc.2.2 ∨ (enrichStep acc l).2.2 = 6 ∨
      (pyStartsWith (pyLower l)  "urgency:" ∧
        parsePyInt (pyStrip (afterFirstColon l)) = some (enrichStep acc l).2.2) := by
  by_cases h1 : pyStartsWith (pyLower l)  "summary:"
  · left
    simp [enrichStep, h1]
  · by_cases h2 : pyStartsWith (pyLower l)  "priority:"
    · by_cases h3 : inPriorityOrder (pyCapitalize (pyStrip (afterFirstColon l)))
      · left
        simp [enrichStep, h1, h2, h3]
      · left
        simp [enrichStep, h1, h2, h3]
    · by_cases h3 : pyStartsWith (pyLower l)  "urgency:"
      · cases hp : parsePyInt (pyStrip (afterFirstColon l)) with
        | none =>
          right; left
          simp [enrichStep, h1, h2, h3, hp]
        | some n =>
          right; right
          exact ⟨h3, by simp [enrichStep, h1, h2, h3, hp]⟩
      · left
        simp [enrichStep, h1, h2, h3]

theorem foldl_enrichStep_urgency (lines : List String) :
    ∀ acc : String × String × Int,
      (lines.foldl enrichStep acc).2.2 = acc.2.2 ∨ (lines.foldl enrichStep acc).2.2 = 6 ∨
        ∃ l ∈ lines, pyStartsWith (pyLower l)  "urgency:" ∧
          parsePyInt (pyStrip (afterFirstColon l)) = some (lines.foldl enrichStep acc).2.2 := by
  induction lines with
  | nil => intro acc; left; rfl
  | cons l ls ih =>
    intro acc
    rw [List.foldl_cons]
    rcases ih (enrichStep acc l) with h | h | ⟨l', hl', hcond⟩
    · rw [h]
      rcases enrichStep_urgency_cases acc l with h2 | h2 | ⟨hu, hp⟩
      · left; exact h2
      · right; left; exact h2
      · right; right
        exact ⟨l, List.mem_cons_self _ _, hu, hp⟩
    · right; left; exact h
    · right; right
      exact ⟨l', List.mem_cons_of_mem _ hl', hcond⟩

/-- C5 (amended): for every possible oracle response, the urgency attached by
enrichment is the fallback sentinel 6 (used on transport failure, missing
`Urgency:` label, or a non-integer value — but also when the line reads
`Urgency: 6`), or else exactly the integer parsed from an `Urgency:` line of
the response; no `[1, 6]` range check is applied, so any integer the oracle
writes on that line is attached as-is. -/
theorem urgency_fallback_or_parsed (env : Env) (t : StagedTicket) :
    (generate_summary_and_priority env t).2.2 = 6 ∨
      ∃ l ∈ pyLines (pyStrip ((env.enrich t).getD "")),
        pyStartsWith (pyLower l)  "urgency:" ∧
          parsePyInt (pyStrip (afterFirstColon l)) =
            some (generate_summary_and_priority env t).2.2 := by
  cases he : env.enrich t with
  | none =>
    left
    simp [generate_summary_and_priority, he]
  | some out =>
    have h := foldl_enrichStep_urgency (pyLines (pyStrip out)) ("N/A", "Low", 6)
    rcases h with h | h | ⟨l, hl, hcond⟩
    · left
      simpa [generate_summary_and_priority, he, parseEnrichOutput] using h
    · left
      simpa [generate_summary_and_priority, he, parseEnrichOutput] using h
    · right
      refine ⟨l, by simpa [he] using hl, ?_⟩
      simpa [generate_summary_and_priority, he, parseEnrichOutput] using hcond

/-! ### Sentiment aggregation (C2, C8) -/

theorem intFloor_eq_ratFloor (q : ℚ) : Int.floor q = Rat.floor q :=
  le_antisymm (Rat.le_floor.mpr (Int.floor_le q)) (Int.le_floor.mpr (Rat.le_floor.mp le_rfl))

theorem pyRound_bounds (q : ℚ) (h0 : 0 ≤ q) (h10 : q ≤ 10) :
    0 ≤ pyRound q ∧ pyRound q ≤ 10 := by
  have hfq : ((Rat.floor q : Int) : ℚ) ≤ q := by
    rw [← intFloor_eq_ratFloor]
    exact Int.floor_le q
  have hf0 : 0 ≤ Rat.floor q := by
    rw [← intFloor_eq_ratFloor]
    exact Int.le_floor.mpr (by exact_mod_cast h0)
  have hf10 : Rat.floor q ≤ 10 := by
    rw [← intFloor_eq_ratFloor]
    calc Int.floor q ≤ Int.floor (10 : ℚ) := Int.floor_le_floor h10
    _ = 10 := by norm_num
  have hf9 : 1 / 2 ≤ q - ((Rat.floor q : Int) : ℚ) → Rat.floor q ≤ 9 := by
    intro hh
    by_contra hc
    push_neg at hc
    have hc10 : (10 : ℚ) ≤ ((Rat.floor q : Int) : ℚ) := by exact_mod_cast hc
    have : (10 : ℚ) + 1 / 2 ≤ q := by linarith
    linarith
  unfold pyRound
  split_ifs with h1 h2 h3
  · exact ⟨hf0, hf10⟩
  · have h9 := hf9 (le_of_lt h2)
    constructor <;> omega
  · exact ⟨hf0, hf10⟩
  · have h9 := hf9 (by push_neg at h1; exact h1)
    constructor <;> omega

theorem list_sum_le_ten (scores : List ℚ) (hr : ∀ q ∈ scores, 0 ≤ q ∧ q ≤ 10) :
    0 ≤ scores.sum ∧ scores.sum ≤ 10 * scores.length := by
  induction scores with
  | nil => simp
  | cons q l ih =>
    have hq := hr q (List.mem_cons_self _ _)
    have hl := ih (fun x hx => hr x (List.mem_cons_of_mem _ hx))
    simp only [List.sum_cons, List.length_cons]
    push_cast
    constructor <;> [linarith [hq.1, hl.1]; linarith [hq.2, hl.2]]

unseal Rat.add Rat.sub Rat.mul Rat.inv in
/-- C2 counterexample: with a sentiment oracle that answers `100` for the
single chunk, `get_sentiment_score` returns 100 — the mean is not clamped to
`[0, 10]`, so the returned score is not always in that range. -/
theorem sentiment_clamp_cex :
    get_sentiment_score envS100 "A" [tinyT] = 100 ∧
      ¬(get_sentiment_score envS100 "A" [tinyT] ≤ 10) := by
  decide

/-- C2 (amended): `get_sentiment_score` returns the banker's-rounded
arithmetic mean of the per-chunk oracle scores with no clamping; the result
is always an integer, and it lies in `[0, 10]` exactly under the additional
assumption (not enforced by the code) that every successfully parsed
per-chunk score lies in `[0, 10]`. -/
theorem sentiment_score_bounds (env : Env) (cid : String)
    (tickets : List EnrichedTicket) (scores : List ℚ)
    (hs : collectScores env (chunk_tickets tickets 3000) = some scores)
    (hr : ∀ q ∈ scores, 0 ≤ q ∧ q ≤ 10) :
    0 ≤ get_sentiment_score env cid tickets ∧ get_sentiment_score env cid tickets ≤ 10 := by
  unfold get_sentiment_score
  rw [hs]
  by_cases hz : scores.length = 0
  · simp [hz]
  · simp only [hz, if_false]
    have hlen : (0 : ℚ) < (scores.length : ℚ) := by
      have : 0 < scores.length := Nat.pos_of_ne_zero hz
      exact_mod_cast this
    have hsum := list_sum_le_ten scores hr
    refine pyRound_bounds _ ?_ ?_
    · exact div_nonneg hsum.1 (le_of_lt hlen)
    · rw [div_le_iff hlen]
      calc scores.sum ≤ 10 * scores.length := hsum.2
      _ = 10 * (scores.length : ℚ) := by push_cast; ring

unseal Rat.add Rat.sub Rat.mul Rat.inv in
/-- C2 amended-theorem witness: with a sentiment oracle answering `7`, the
hypotheses hold concretely and the score is within bounds. -/
theorem sentiment_score_bounds_witness :
    0 ≤ get_sentiment_score envS7 "A" [tinyT] ∧
      get_sentiment_score envS7 "A" [tinyT] ≤ 10 :=
  sentiment_score_bounds envS7 "A" [tinyT] [7] (by decide) (by decide)

theorem collectScores_none (env : Env) :
    ∀ chunks : List (List EnrichedTicket),
      (∃ c ∈ chunks, chunkFails env c) → collectScores env chunks = none := by
  intro chunks
  induction chunks with
  | nil =>
    rintro ⟨c, hc, _⟩
    simp at hc
  | cons c cs ih =>
    rintro ⟨d, hd, hfail⟩
    rcases List.mem_cons.mp hd with rfl | hd
    · rcases hfail with h | ⟨s, hs, hp⟩
      · simp [collectScores, h]
      · simp [collectScores, hs, hp]
    · unfold collectScores
      cases h1 : env.sentiment (combinedText c) with
      | none => rfl
      | some resp =>
        cases h2 : pyFloat (pyStrip resp) with
        | none => simp [h2]
        | some q => simp [h2, ih ⟨d, hd, hfail⟩]

theorem generate_summary_and_priority_congr (env1 env2 : Env)
    (he : env1.enrich = env2.enrich) :
    generate_summary_and_priority env1 = generate_summary_and_priority env2 := by
  funext t
  unfold generate_summary_and_priority
  rw [he]

/-- C8: if the sentiment oracle call fails on any chunk of a client's tickets
(transport failure or a response that does not parse as a float),
`get_sentiment_score` returns 0 for the client as a whole (never a partial
average of the successful chunks); and the client's emitted tickets are
independent of the sentiment oracle entirely, so the client's tickets are
still emitted exactly as they would be otherwise. -/
theorem sentiment_chunk_failure_soft :
    (∀ (env : Env) (cid : String) (tickets : List EnrichedTicket),
        (∃ c ∈ chunk_tickets tickets 3000, chunkFails env c) →
        get_sentiment_score env cid tickets = 0) ∧
    (∀ env1 env2 : Env, env1.fetch = env2.fetch → env1.enrich = env2.enrich →
        ∀ (multi : Bool) (nts : List NewTicketIn) (cid : String),
          ((processClient env1 multi nts cid).1).map ClientBlock.tickets =
              ((processClient env2 multi nts cid).1).map ClientBlock.tickets ∧
            (processClient env1 multi nts cid).2 = (processClient env2 multi nts cid).2) := by
  constructor
  · intro env cid tickets hex
    unfold get_sentiment_score
    rw [collectScores_none env _ hex]
  · intro env1 env2 hf he multi nts cid
    have hg := generate_summary_and_priority_congr env1 env2 he
    have hext : enrichExternalOne env1 = enrichExternalOne env2 := by
      funext c nm t
      unfold enrichExternalOne
      rw [hg]
    have hnew : enrichNewOne env1 = enrichNewOne env2 := by
      funext c nm t
      unfold enrichNewOne
      rw [hg]
    have hct : ∀ data, clientTicketsOf env1 cid data nts = clientTicketsOf env2 cid data nts := by
      intro data
      unfold clientTicketsOf stagedNewOf enrichExternal enrichNew
      rw [hext, hnew]
    have htr : ∀ data, traceOf env1 cid data nts = traceOf env2 cid data nts := by
      intro data
      unfold traceOf stagedNewOf enrichExternal
      rw [hext]
    unfold processClient
    rw [hf]
    cases h2 : env2.fetch cid with
    | none => exact ⟨rfl, rfl⟩
    | some data =>
      simp only [hct data, htr data]
      by_cases hso : sortOkB (clientTicketsOf env2 cid data nts) <;> simp [hso]

/-- C8 witness: with an always-failing sentiment oracle the concrete score is
0, and swapping the sentiment oracle (`envS7` vs `envFail` differ only there)
leaves the concrete client block's tickets unchanged. -/
theorem sentiment_chunk_failure_soft_witness :
    get_sentiment_score envFail "A" [tinyT] = 0 ∧
      ((processClient envS7 false [] "A").1).map ClientBlock.tickets =
        ((processClient envFail false [] "A").1).map ClientBlock.tickets :=
  ⟨sentiment_chunk_failure_soft.1 envFail "A" [tinyT] ⟨[tinyT], by decide, Or.inl rfl⟩,
   (sentiment_chunk_failure_soft.2 envS7 envFail rfl rfl false [] "A").1⟩

/-! ### Orchestration lemmas and claim C1 -/

theorem pairwise_of_total_true {β : Type} {S : β → β → Prop} (h : ∀ a b, S a b) :
    ∀ l : List β, l.Pairwise S := by
  intro l
  induction l with
  | nil => exact List.Pairwise.nil
  | cons a l ih => exact List.Pairwise.cons (fun b _ => h a b) ih

theorem pairwise_flatMap_of {α β : Type} {R : α → α → Prop} {S : β → β → Prop}
    (l : List α) (f : α → List β)
    (hR : l.Pairwise R)
    (hin : ∀ a ∈ l, (f a).Pairwise S)
    (hcross : ∀ a b, R a b → ∀ x ∈ f a, ∀ y ∈ f b, S x y) :
    (l.flatMap f).Pairwise S := by
  induction l with
  | nil => simp
  | cons a l ih =>
    rw [List.flatMap_cons, List.pairwise_append]
    rcases List.pairwise_cons.mp hR with ⟨ha, hR2⟩
    refine ⟨hin a (List.mem_cons_self _ _),
      ih hR2 (fun b hb => hin b (List.mem_cons_of_mem _ hb)), ?_⟩
    intro x hx y hy
    rcases List.mem_flatMap.mp hy with ⟨b, hb, hyb⟩
    exact hcross a b (ha b hb) x hx y hyb

theorem prioritize_ok_iff (env : Env) (req : RequestIn) (out : List OutTicket) :
    prioritize env req = Except.ok out ↔ req.cnb_ids ≠ [] ∧ out = outputOf env req := by
  unfold prioritize prioritizeWithTrace
  by_cases h : req.cnb_ids = [] <;> simp [h, eq_comm]

/-- C1: on a multi-client request (more than one entry in `cnb_ids`) the
final flat list is ordered by non-increasing per-ticket `sentiment_score`
(hence every ticket of a strictly-higher-scored client precedes every ticket
of a lower-scored one) and every ticket carries a score; on a single-client
request `sentiment_score` is omitted from every ticket. -/
theorem output_ordered_by_sentiment (env : Env) (req : RequestIn)
    (out : List OutTicket) (hok : prioritize env req = Except.ok out) :
    (1 < req.cnb_ids.length →
      (∀ t ∈ out, t.sentiment_score.isSome) ∧
      (out.map (fun t => t.sentiment_score.getD 0)).Pairwise
        (fun a b : Int => b ≤ a)) ∧
    (req.cnb_ids.length = 1 → ∀ t ∈ out, t.sentiment_score = none) := by
  obtain ⟨hne, rfl⟩ := (prioritize_ok_iff env req out).mp hok
  constructor
  · intro hm
    have hmt : multiOf req = true := by simp [multiOf, hm]
    constructor
    · intro t ht
      unfold outputOf at ht
      rcases List.mem_flatMap.mp ht with ⟨b, hb, htb⟩
      rcases List.mem_map.mp htb with ⟨tt, htt, rfl⟩
      simp [emitTicket, hmt]
    · unfold outputOf
      rw [List.map_flatMap]
      have hs : (sortedBlocksOf env req).Pairwise rBlock := by
        unfold sortedBlocksOf
        rw [hmt]
        exact List.sorted_insertionSort rBlock _
      refine pairwise_flatMap_of _ _ hs ?_ ?_
      · intro b hb
        rw [List.map_map]
        refine List.pairwise_map.mpr (pairwise_of_total_true ?_ _)
        intro x y
        simp [emitTicket, hmt, Function.comp]
      · intro a b hab x hx y hy
        rw [List.map_map] at hx hy
        rcases List.mem_map.mp hx with ⟨tx, htx, rfl⟩
        rcases List.mem_map.mp hy with ⟨ty, hty, rfl⟩
        simp only [Function.comp, emitTicket, hmt, if_true, Option.getD_some]
        unfold rBlock at hab
        omega
  · intro h1
    have hmf : multiOf req = false := by simp [multiOf, h1]
    intro t ht
    unfold outputOf at ht
    rcases List.mem_flatMap.mp ht with ⟨b, hb, htb⟩
    rcases List.mem_map.mp htb with ⟨tt, htt, rfl⟩
    simp [emitTicket, hmf]

unseal Rat.add Rat.sub Rat.mul Rat.inv in
/-- C1 witness: the two-client scenario with sentiment scores 8 and 3 — the
hypothesis `prioritize envC1 reqC1 = ok outC1` is discharged by evaluation
and the ordering properties hold on the concrete output. -/
theorem output_ordered_by_sentiment_witness :
    (1 < reqC1.cnb_ids.length →
      (∀ t ∈ outC1, t.sentiment_score.isSome) ∧
      (outC1.map (fun t => t.sentiment_score.getD 0)).Pairwise
        (fun a b : Int => b ≤ a)) ∧
    (reqC1.cnb_ids.length = 1 → ∀ t ∈ outC1, t.sentiment_score = none) :=
  output_ordered_by_sentiment envC1 reqC1 outC1 (by decide)

/-! ### Timestamp handling (C3) -/

theorem pivotYear_ge (yv : Nat) : 1969 ≤ pivotYear yv := by
  unfold pivotYear
  split <;> omega

theorem mkRank_gt_min (y m d hh mm : Nat) (hy : 1969 ≤ y) (hm : 1 ≤ m) (hd : 1 ≤ d) :
    datetimeMinRank < mkRank y m d hh mm := by
  unfold datetimeMinRank mkRank
  omega

theorem strptime_gt_min (s : String) (r : Nat) (h : strptimeDMYHM s = some r) :
    datetimeMinRank < r := by
  unfold strptimeDMYHM at h
  dsimp only at h
  split at h
  · split at h
    · split at h
      · split at h
        · split at h
          · injection h with h2
            subst h2
            exact mkRank_gt_min _ _ _ _ _ (pivotYear_ge _) (by omega) (by omega)
          · exact absurd h (by simp)
        · exact absurd h (by simp)
      · exact absurd h (by simp)
    · exact absurd h (by simp)
  · exact absurd h (by simp)

theorem sortOkB_false_iff (ts : List EnrichedTicket) :
    sortOkB ts = false ↔
      ∃ t ∈ ts, t.created_at ≠ "" ∧ strptimeDMYHM t.created_at = none := by
  unfold sortOkB createdOk
  rw [List.all_eq_false]
  constructor
  · rintro ⟨t, ht, hprop⟩
    refine ⟨t, ht, ?_, ?_⟩
    · intro hc
      simp [hc] at hprop
    · cases hp : strptimeDMYHM t.created_at with
      | none => rfl
      | some v => simp [hp] at hprop
  · rintro ⟨t, ht, hne, hnone⟩
    exact ⟨t, ht, by simp [hne, hnone]⟩

theorem processClient_none_iff (env : Env) (multi : Bool) (nts : List NewTicketIn)
    (cid : String) :
    (processClient env multi nts cid).1 = none ↔
      env.fetch cid = none ∨
        ∃ data, env.fetch cid = some data ∧
          sortOkB (clientTicketsOf env cid data nts) = false := by
  unfold processClient
  cases hf : env.fetch cid with
  | none => simp
  | some data =>
    dsimp only
    by_cases hso : sortOkB (clientTicketsOf env cid data nts) <;> simp [hso]

theorem processClient_some_eq (env : Env) (multi : Bool) (nts : List NewTicketIn)
    (cid : String) (data : FetchedData) (b : ClientBlock)
    (hf : env.fetch cid = some data)
    (hb : (processClient env multi nts cid).1 = some b) :
    b.client_id = cid ∧
      b.tickets = List.insertionSort rTicket (clientTicketsOf env cid data nts) ∧
      sortOkB (clientTicketsOf env cid data nts) = true := by
  unfold processClient at hb
  rw [hf] at hb
  dsimp only at hb
  by_cases hso : sortOkB (clientTicketsOf env cid data nts)
  · rw [if_pos hso] at hb
    dsimp only at hb
    injection hb with hb2
    subst hb2
    exact ⟨rfl, rfl, hso⟩
  · rw [if_neg hso] at hb
    exact absurd hb (by simp)

theorem sorted_emptyCreatedFirst (ts : List EnrichedTicket) (hok : sortOkB ts = true) :
    (List.insertionSort rTicket ts).Pairwise emptyCreatedFirst := by
  have hs : (List.insertionSort rTicket ts).Sorted rTicket :=
    List.sorted_insertionSort rTicket ts
  have hperm := List.perm_insertionSort rTicket ts
  refine hs.imp_of_mem ?_
  intro a b ha hb hr
  rintro ⟨hp, hu, hcb⟩
  by_contra hca
  have hain : a ∈ ts := hperm.mem_iff.mp ha
  have hoka : createdOk a.created_at = true := by
    have := List.all_eq_true.mp hok a hain
    simpa using this
  have hsome : (strptimeDMYHM a.created_at).isSome = true := by
    unfold createdOk at hoka
    rcases Bool.or_eq_true_iff.mp hoka with h | h
    · exact absurd (by simpa using h) hca
    · exact h
  rcases Option.isSome_iff_exists.mp hsome with ⟨ra, hra⟩
  have hgt := strptime_gt_min _ _ hra
  have hta : timeKeyD a.created_at = ra := by
    unfold timeKeyD
    rw [if_neg hca, hra]
    rfl
  have htb : timeKeyD b.created_at = datetimeMinRank := by
    unfold timeKeyD
    rw [if_pos hcb]
  unfold rTicket keyLE ticketKey at hr
  simp only at hr
  rw [hta, htb] at hr
  rw [hp, hu] at hr
  omega

/-- C3 counterexample: client `A`'s payload contains a valid ticket record
`T1` whose `created_at` is the non-empty unparsable string `"garbage"`;
instead of that ticket sorting as `datetime.min` and appearing first, the
`strptime` call raises during the sort, the per-client handler skips the
whole client, and the output is empty — the ticket does not appear at all. -/
theorem created_at_unparsable_cex :
    envC3.fetch "A" = some dataC3 ∧ stagedExternal dataC3 ≠ [] ∧
      prioritize envC3 reqC3 = Except.ok [] := by
  decide

/-- C3 (amended): only a ticket with an *empty* `created_at` is treated as
the minimum timestamp — it sorts before every ticket with a parsable
timestamp in the same `(priority rank, urgency)` tier and still appears in
the output (the sorted block is a permutation of the client's enriched
tickets); but a ticket whose `created_at` is non-empty and unparsable makes
`strptime` raise inside the sort, and then the whole client is skipped
(`processClient` yields no block exactly when the fetch fails or such a
ticket exists). -/
theorem created_at_min_or_skip (env : Env) (multi : Bool) (nts : List NewTicketIn)
    (cid : String) :
    ((processClient env multi nts cid).1 = none ↔
      env.fetch cid = none ∨
        ∃ data, env.fetch cid = some data ∧
          ∃ t ∈ clientTicketsOf env cid data nts,
            t.created_at ≠ "" ∧ strptimeDMYHM t.created_at = none) ∧
    (∀ (data : FetchedData) (b : ClientBlock),
      env.fetch cid = some data → (processClient env multi nts cid).1 = some b →
      b.tickets.Perm (clientTicketsOf env cid data nts) ∧
        b.tickets.Pairwise emptyCreatedFirst) := by
  constructor
  · rw [processClient_none_iff]
    constructor
    · rintro (h | ⟨data, hf, hso⟩)
      · exact Or.inl h
      · exact Or.inr ⟨data, hf, (sortOkB_false_iff _).mp hso⟩
    · rintro (h | ⟨data, hf, hex⟩)
      · exact Or.inl h
      · exact Or.inr ⟨data, hf, (sortOkB_false_iff _).mpr hex⟩
  · intro data b hf hb
    obtain ⟨-, hts, hso⟩ := processClient_some_eq env multi nts cid data b hf hb
    rw [hts]
    exact ⟨List.perm_insertionSort _ _, sorted_emptyCreatedFirst _ hso⟩

/-- C3 amended-theorem witness: in the concrete two-ticket scenario (one
empty timestamp, one valid) the client succeeds, its block is a permutation
of the enriched tickets, and the empty-timestamp ticket is first in its
tier. -/
theorem created_at_min_or_skip_witness :
    (processClient envW3 false [] "A").1 = some blockW3 ∧
      blockW3.tickets.Perm (clientTicketsOf envW3 "A" dataW3 []) ∧
        blockW3.tickets.Pairwise emptyCreatedFirst :=
  ⟨by decide,
   (created_at_min_or_skip envW3 false [] "A").2 dataW3 blockW3 (by decide) (by decide)⟩

/-! ### Synthetic ticket numbers (C4) -/

theorem prepareNewAux_length (base : Nat) :
    ∀ (nts : List NewTicketIn) (j : Nat), (prepareNewAux base j nts).length = nts.length := by
  intro nts
  induction nts with
  | nil => intro j; rfl
  | cons nt rest ih =>
    intro j
    simp [prepareNewAux, ih]

theorem prepareNewAux_get (base : Nat) :
    ∀ (nts : List NewTicketIn) (j i : Nat) (h : i < nts.length)
      (hp : i < (prepareNewAux base j nts).length),
      (prepareNewAux base j nts).get ⟨i, hp⟩ =
        prepStageOne (base + (j + i) + 1) (nts.get ⟨i, h⟩) := by
  intro nts
  induction nts with
  | nil =>
    intro j i h hp
    exact absurd h (by simp)
  | cons nt rest ih =>
    intro j i h hp
    cases i with
    | zero => rfl
    | succ k =>
      have h2 : k < rest.length := by simpa using h
      have hp2 : k < (prepareNewAux base (j + 1) rest).length := by
        rw [prepareNewAux_length]
        exact h2
      have hstep :
          (prepareNewAux base j (nt :: rest)).get ⟨k + 1, hp⟩ =
            (prepareNewAux base (j + 1) rest).get ⟨k, hp2⟩ := rfl
      rw [hstep, ih (j + 1) k h2 hp2]
      have harith : base + (j + 1 + k) + 1 = base + (j + (k + 1)) + 1 := by omega
      rw [harith]
      rfl

/-- C4 counterexample: client `A` has one valid external ticket, and its one
caller-submitted ticket lacking a `ticket_number` is assigned `NEW-2` — not
`NEW-1` as the claim ("independent of how many externally-fetched tickets the
client has") requires. -/
theorem synthetic_number_cex :
    prioritize envC4 reqC4 = Except.ok outC4 ∧
      outC4.map (fun t => t.ticket_number) = ["T1", "NEW-2"] ∧
      ¬ "NEW-1" ∈ outC4.map (fun t => t.ticket_number) := by
  decide

/-- C4 (amended): a caller-submitted ticket lacking a `ticket_number` at
position `i` (0-based) of the client's caller-submitted list is assigned
`NEW-<base + i + 1>` where `base` is the number of the client's *valid
externally-fetched tickets* (the length of `client_tickets` when the new
tickets are prepared) — the synthetic number is offset by the external
tickets, not a pure position among caller-submitted tickets. -/
theorem synthetic_number_assignment :
    (∀ (base i : Nat) (nts : List NewTicketIn) (h : i < nts.length)
        (hp : i < (prepare_new base nts).length),
        (nts.get ⟨i, h⟩).ticket_number = none →
        ((prepare_new base nts).get ⟨i, hp⟩).ticket_number =
          "NEW-" ++ toString (base + i + 1)) ∧
    (∀ (env : Env) (cid : String) (data : FetchedData) (nts : List NewTicketIn),
        stagedNewOf env cid data nts =
          prepare_new (stagedExternal data).length (newForClient cid nts)) := by
  constructor
  · intro base i nts h hp hnone
    unfold prepare_new at hp ⊢
    rw [prepareNewAux_get base nts 0 i h hp]
    unfold prepStageOne
    rw [hnone]
    simp
  · intro env cid data nts
    unfold stagedNewOf enrichExternal
    rw [List.length_map]

/-- C4 witness: with one external ticket (`base = 1`) the first caller ticket
without a number gets `NEW-2`, and the concrete staging base equals the
number of valid external tickets. -/
theorem synthetic_number_assignment_witness :
    ((prepare_new 1 [ntC4]).get ⟨0, by decide⟩).ticket_number = "NEW-2" ∧
      stagedNewOf envC4 "A" dataC4 [ntC4] =
        prepare_new (stagedExternal dataC4).length (newForClient "A" [ntC4]) :=
  ⟨synthetic_number_assignment.1 1 0 [ntC4] (by decide) (by decide) (by decide),
   synthetic_number_assignment.2 envC4 "A" dataC4 [ntC4]⟩

/-! ### Discarding invalid external records (C6) -/

theorem stagedOfItem_invalid (item : FetchItem) (h : keepValidItem item = false) :
    stagedOfItem item = none := by
  cases item with
  | scalar v => rfl
  | record r =>
    unfold stagedOfItem stagedOfRecord
    dsimp only
    rw [if_neg]
    rintro ⟨h1, h2⟩
    have : keepValidItem (FetchItem.record r) = true := by
      unfold keepValidItem
      simp [h1, h2]
    rw [this] at h
    cases h

theorem filterMap_filter_keepValid (items : List FetchItem) :
    (items.filter keepValidItem).filterMap stagedOfItem = items.filterMap stagedOfItem := by
  induction items with
  | nil => rfl
  | cons item rest ih =>
    by_cases hk : keepValidItem item
    · simp [List.filter_cons, hk, List.filterMap_cons, ih]
    · have hn := stagedOfItem_invalid item (by simpa using hk)
      simp [List.filter_cons, hk, List.filterMap_cons, hn, ih]

theorem stagedExternal_dropInvalid (data : FetchedData) :
    stagedExternal (dropInvalidRecords data) = stagedExternal data := by
  unfold stagedExternal dropInvalidRecords
  exact filterMap_filter_keepValid data.items

theorem clientTicketsOf_dropInvalid (env : Env) (cid : String) (data : FetchedData)
    (nts : List NewTicketIn) :
    clientTicketsOf (filterFetchEnv env) cid (dropInvalidRecords data) nts =
      clientTicketsOf env cid data nts := by
  have hst := stagedExternal_dropInvalid data
  have hnm : clientNameOf (dropInvalidRecords data) = clientNameOf data := rfl
  have hx : enrichExternalOne (filterFetchEnv env) = enrichExternalOne env := rfl
  have hy : enrichNewOne (filterFetchEnv env) = enrichNewOne env := rfl
  unfold clientTicketsOf stagedNewOf enrichExternal enrichNew
  rw [hst, hnm, hx, hy]

theorem traceOf_dropInvalid (env : Env) (cid : String) (data : FetchedData)
    (nts : List NewTicketIn) :
    traceOf (filterFetchEnv env) cid (dropInvalidRecords data) nts =
      traceOf env cid data nts := by
  have hst := stagedExternal_dropInvalid data
  have hnm : clientNameOf (dropInvalidRecords data) = clientNameOf data := rfl
  have hx : enrichExternalOne (filterFetchEnv env) = enrichExternalOne env := rfl
  unfold traceOf stagedNewOf enrichExternal
  rw [hst, hnm, hx]

theorem collectScores_congr (env1 env2 : Env) (hs : env1.sentiment = env2.sentiment) :
    collectScores env1 = collectScores env2 := by
  funext chunks
  induction chunks with
  | nil => rfl
  | cons c cs ih =>
    unfold collectScores
    rw [hs, ih]

theorem get_sentiment_score_congr (env1 env2 : Env)
    (hs : env1.sentiment = env2.sentiment) :
    get_sentiment_score env1 = get_sentiment_score env2 := by
  funext cid tickets
  unfold get_sentiment_score
  rw [collectScores_congr env1 env2 hs]

theorem processClient_filterFetch (env : Env) (multi : Bool) (nts : List NewTicketIn)
    (cid : String) :
    processClient (filterFetchEnv env) multi nts cid = processClient env multi nts cid := by
  unfold processClient
  have hfe : (filterFetchEnv env).fetch cid = (env.fetch cid).map dropInvalidRecords := rfl
  rw [hfe]
  cases hf : env.fetch cid with
  | none => rfl
  | some data =>
    have hgs : get_sentiment_score (filterFetchEnv env) = get_sentiment_score env :=
      get_sentiment_score_congr _ _ rfl
    simp only [Option.map_some']
    rw [clientTicketsOf_dropInvalid, traceOf_dropInvalid, hgs]

/-- C6 counterexample: a caller-submitted ticket with no `content` at all is
*not* discarded — it is enriched and appears in the final output (the
content-lacking filter applies only to externally fetched records). -/
theorem content_filter_cex :
    reqC6.new_tickets.map (fun nt => nt.content) = [none] ∧
      prioritize envC6 reqC6 = Except.ok [outTicketC6] := by
  decide

/-- C6 (amended): every *externally fetched* record lacking a truthy ticket
number or non-empty content is discarded before enrichment and never appears
in the output — deleting all such records from every fetch payload changes
neither the endpoint's output nor the sequence of enrichment oracle calls.
Caller-submitted tickets are not subject to this filter (see the
counterexample: a content-less caller ticket is enriched and emitted). -/
theorem invalid_records_inert (env : Env) (req : RequestIn) :
    prioritizeWithTrace (filterFetchEnv env) req = prioritizeWithTrace env req := by
  have hpc : processClient (filterFetchEnv env) (multiOf req) req.new_tickets =
      processClient env (multiOf req) req.new_tickets :=
    funext (fun cid => processClient_filterFetch env (multiOf req) req.new_tickets cid)
  unfold prioritizeWithTrace outputOf sortedBlocksOf requestTrace
  rw [hpc]

/-! ### Dropping unmatched caller-submitted tickets (C9) -/

theorem newForClient_filter (ids : List String) (cid : String) (hc : cid ∈ ids)
    (nts : List NewTicketIn) :
    newForClient cid (nts.filter (fun nt =>
        truthyOpt nt.client_id && ids.contains (nt.client_id.getD ""))) =
      newForClient cid nts := by
  unfold newForClient
  rw [List.filter_filter]
  apply List.filter_congr
  intro a ha
  by_cases ht : truthyOpt a.client_id
  · by_cases he : a.client_id.getD "" = cid
    · have hmem : a.client_id.getD "" ∈ ids := by
        rw [he]
        exact hc
      simp [ht, he, hmem, hc]
    · simp [ht, he]
  · simp [ht]

theorem processClient_nts_congr (env : Env) (multi : Bool) (nts1 nts2 : List NewTicketIn)
    (cid : String) (h : newForClient cid nts1 = newForClient cid nts2) :
    processClient env multi nts1 cid = processClient env multi nts2 cid := by
  unfold processClient clientTicketsOf traceOf stagedNewOf
  rw [h]

theorem prioritizeWithTrace_new_congr (env : Env) (req : RequestIn)
    (nts2 : List NewTicketIn)
    (h : ∀ cid ∈ req.cnb_ids, newForClient cid nts2 = newForClient cid req.new_tickets) :
    prioritizeWithTrace env { req with new_tickets := nts2 } =
      prioritizeWithTrace env req := by
  have hmap : req.cnb_ids.map (processClient env (multiOf req) nts2) =
      req.cnb_ids.map (processClient env (multiOf req) req.new_tickets) :=
    List.map_congr_left (fun cid hcid =>
      processClient_nts_congr env (multiOf req) nts2 req.new_tickets cid (h cid hcid))
  unfold prioritizeWithTrace outputOf sortedBlocksOf requestTrace
  show (if req.cnb_ids = [] then _ else _) = _
  rw [show multiOf { req with new_tickets := nts2 } = multiOf req from rfl]
  rw [show ({ req with new_tickets := nts2 } : RequestIn).cnb_ids = req.cnb_ids from rfl]
  rw [show ({ req with new_tickets := nts2 } : RequestIn).new_tickets = nts2 from rfl]
  rw [hmap]

theorem processClient_ticket_cid (env : Env) (multi : Bool) (nts : List NewTicketIn)
    (cid : String) (b : ClientBlock)
    (hb : (processClient env multi nts cid).1 = some b) :
    b.client_id = cid ∧ ∀ tt ∈ b.tickets, tt.client_id = cid := by
  cases hf : env.fetch cid with
  | none =>
    unfold processClient at hb
    rw [hf] at hb
    exact absurd hb (by simp)
  | some data =>
    obtain ⟨hcid, hts, hso⟩ := processClient_some_eq env multi nts cid data b hf hb
    refine ⟨hcid, ?_⟩
    intro tt htt
    rw [hts] at htt
    have hmem : tt ∈ clientTicketsOf env cid data nts :=
      (List.perm_insertionSort rTicket _).mem_iff.mp htt
    unfold clientTicketsOf enrichExternal enrichNew at hmem
    rcases List.mem_append.mp hmem with h | h
    · rcases List.mem_map.mp h with ⟨st, hst, rfl⟩
      rfl
    · rcases List.mem_map.mp h with ⟨st, hst, rfl⟩
      rfl

/-- C9 counterexample: client `A` (valid empty payload) has one caller ticket
`ntC9` whose `created_at` is unparsable, so the client fails at the sort
stage and no requested id is processed successfully — by the claim `ntC9`
should never be enriched, yet its enrichment call is on the trace (while it
indeed never appears in the empty output). -/
theorem enriched_but_dropped_cex :
    prioritizeWithTrace envC6 reqC9 = (Except.ok [], [stagedC9]) ∧
      successfulIds envC6 reqC9 = [] := by
  decide

/-- C9 (amended): a `new_tickets` entry whose `client_id` is missing/empty or
not among the requested `cnb_ids` is never enriched and never appears
(filtering all such entries out changes neither the output nor the sequence
of enrichment calls); and every output ticket's `client_id` is a requested id
whose processing succeeded, so entries of failed clients never appear in the
output — however an entry of a requested client that fails only at the sort
stage has already been enriched by then (see the counterexample). -/
theorem unmatched_new_tickets_dropped :
    (∀ (env : Env) (req : RequestIn),
        prioritizeWithTrace env
          { req with new_tickets := req.new_tickets.filter (fun nt =>
              truthyOpt nt.client_id && req.cnb_ids.contains (nt.client_id.getD "")) } =
          prioritizeWithTrace env req) ∧
    (∀ (env : Env) (req : RequestIn) (out : List OutTicket) (t : OutTicket),
        prioritize env req = Except.ok out → t ∈ out →
        t.client_id ∈ successfulIds env req) := by
  constructor
  · intro env req
    exact prioritizeWithTrace_new_congr env req _
      (fun cid hcid => newForClient_filter req.cnb_ids cid hcid req.new_tickets)
  · intro env req out t hok ht
    obtain ⟨hne, rfl⟩ := (prioritize_ok_iff env req out).mp hok
    unfold outputOf at ht
    rcases List.mem_flatMap.mp ht with ⟨b, hb, htb⟩
    rcases List.mem_map.mp htb with ⟨tt, htt, rfl⟩
    have hbm : b ∈ (req.cnb_ids.map
        (processClient env (multiOf req) req.new_tickets)).filterMap (fun r => r.1) := by
      unfold sortedBlocksOf at hb
      by_cases hm : multiOf req
      · rw [hm] at hb
        simp only [if_true] at hb
        rw [hm]
        exact (List.perm_insertionSort rBlock _).mem_iff.mp hb
      · rw [Bool.not_eq_true] at hm
        rw [hm] at hb
        rw [hm]
        simpa using hb
    rcases List.mem_filterMap.mp hbm with ⟨r, hr, hr1⟩
    rcases List.mem_map.mp hr with ⟨cid, hcid, rfl⟩
    obtain ⟨hbcid, hall⟩ := processClient_ticket_cid env (multiOf req) req.new_tickets cid b hr1
    have htcid : (emitTicket (multiOf req) b.sentiment_score tt).client_id = cid := by
      simpa [emitTicket] using hall tt htt
    rw [htcid]
    unfold successfulIds
    rw [List.mem_filter]
    refine ⟨hcid, ?_⟩
    rw [hr1]
    rfl

/-- C9 witness: in the concrete one-client scenario the no-op filtering
equality holds, and the concrete output ticket `T1`'s client id is among the
successfully processed ids. -/
theorem unmatched_new_tickets_dropped_witness :
    prioritizeWithTrace envC4
        { reqC4 with new_tickets := reqC4.new_tickets.filter (fun nt =>
            truthyOpt nt.client_id && reqC4.cnb_ids.contains (nt.client_id.getD "")) } =
      prioritizeWithTrace envC4 reqC4 ∧
    (outC4.get ⟨0, by decide⟩).client_id ∈ successfulIds envC4 reqC4 :=
  ⟨unmatched_new_tickets_dropped.1 envC4 reqC4,
   unmatched_new_tickets_dropped.2 envC4 reqC4 outC4 (outC4.get ⟨0, by decide⟩)
     (by decide) (by decide)⟩

end TicketQueuing
